import Mathlib

/-!
Verification of the QueueTicket service core (src/src/main.rs) against its
natural-language specification.

The Rust program is an axum web service backed by a Postgres table
`tickets(id, number, group_size, status)`.  We embed the store as a
`List Ticket` (rows in insertion order) and give each SQL statement used by
the handlers its relational meaning.  Handlers that can panic via
`.expect(...)` return an `Outcome`, whose `panicked` constructor records the
panic message; all other handler results are `ok`.
-/

namespace QueueTicket

/-- A row of the `tickets` table (struct `Ticket` in main.rs).  The Postgres
`uuid` primary key is embedded as an opaque `Nat`; `number` and `group_size`
are `i32` columns whose values in every reachable store stay far below the
machine bounds, so they are embedded as `Int`. -/
structure Ticket where
  id : Nat
  number : Int
  group_size : Int
  status : String
deriving DecidableEq

/-- Meaning of `SELECT COALESCE(MAX(number), 0) ... FROM tickets`: the
maximum of the `number` column, or `0` for an empty table. -/
def maxNumber : List Ticket → Int
  | [] => 0
  | t :: ts => ts.foldl (fun m u => max m u.number) t.number

/-- The ticket number computed by `create_ticket` (main.rs lines 245-249):
`COALESCE(MAX(number), 0) + 1`, then wrapped to `1` when it exceeds `999`. -/
def assignedNumber (s : List Ticket) : Int :=
  let next_number := maxNumber s + 1
  if next_number > 999 then 1 else next_number

/-- Meaning of the `INSERT ... VALUES ($1, $2, 'waiting') RETURNING ...` in
`create_ticket`: append a fresh row with status `waiting`.  The database
generates the fresh uuid; it enters the model as the argument `newId`. -/
def createTicket (s : List Ticket) (newId : Nat) (gs : Int) : Ticket × List Ticket :=
  let t : Ticket := ⟨newId, assignedNumber s, gs, "waiting"⟩
  (t, s ++ [t])

/-- Meaning of `SELECT ... FROM tickets WHERE id = $1` under `fetch_one`:
the first row whose `id` matches, if any. -/
def getTicket (s : List Ticket) (tid : Nat) : Option Ticket :=
  s.find? (fun t => t.id == tid)

/-- Meaning of `UPDATE tickets SET status = $1 WHERE id = $2`: rewrite the
`status` column of every matching row, leave all other rows untouched. -/
def updateStatusStore (s : List Ticket) (tid : Nat) (st : String) : List Ticket :=
  s.map (fun t => if t.id == tid then { t with status := st } else t)

/-- Meaning of `SELECT COUNT(*) FROM tickets WHERE status = 'waiting' AND
number < $1`. -/
def countWaitingBefore (s : List Ticket) (k : Int) : Nat :=
  (s.filter (fun t => t.status == "waiting" && decide (t.number < k))).length

/-- Relation used by `ORDER BY number ASC`. -/
def numberLE (a b : Ticket) : Prop := a.number ≤ b.number

instance : DecidableRel numberLE :=
  fun a b => inferInstanceAs (Decidable (a.number ≤ b.number))

instance : IsTotal Ticket numberLE :=
  ⟨fun a b => le_total a.number b.number⟩

instance : IsTrans Ticket numberLE :=
  ⟨fun _ _ _ hab hbc => le_trans hab hbc⟩

/-- Meaning of `SELECT ... WHERE status != 'completed' ORDER BY number ASC`
in `call_page` (main.rs lines 272-283): the non-completed rows sorted by
ascending `number`. -/
def call_page (s : List Ticket) : List Ticket :=
  List.insertionSort numberLE (s.filter (fun t => !(t.status == "completed")))

/-- Meaning of `TRUNCATE TABLE tickets` in `reset_db` (main.rs 217-223). -/
def reset_db (_s : List Ticket) : List Ticket := []

/-- Result of running a request handler: either its normal value or a panic
raised by an `.expect(msg)` on a failed store call. -/
inductive Outcome (α : Type) where
  | ok : α → Outcome α
  | panicked : String → Outcome α
deriving DecidableEq

/-- The `guest_page` handler (main.rs 305-319): fetch the ticket by id —
`fetch_one` yields a row-not-found error on an unknown id, which
`.expect("Ticket not found")` escalates to a panic — then count the waiting
tickets with a strictly smaller number. -/
def guest_page (s : List Ticket) (tid : Nat) : Outcome (Ticket × Nat) :=
  match getTicket s tid with
  | none => Outcome.panicked "Ticket not found"
  | some t => Outcome.ok (t, countWaitingBefore s t.number)

/-- The `create_ticket` handler (main.rs 241-270), store part: no validation
of `group_size` happens here; the row is inserted as received. -/
def create_ticket (s : List Ticket) (newId : Nat) (gs : Int) :
    Outcome (Ticket × List Ticket) :=
  Outcome.ok (createTicket s newId gs)

/-- The `update_status` handler (main.rs 291-303): run the `UPDATE` — which
succeeds even when zero rows match, and writes whatever status string the
form supplied — then redirect to `/admin/call`. -/
def update_status (s : List Ticket) (tid : Nat) (st : String) :
    Outcome (List Ticket × String) :=
  Outcome.ok (updateStatusStore s tid st, "/admin/call")

/-! ## The access guard (`auth` middleware, main.rs 160-210) -/

/-- HTTP methods distinguished by the guard. -/
inductive Method where
  | GET | POST | PUT | DELETE
deriving DecidableEq

/-- The parts of an inbound request the `auth` middleware inspects.  The
`Authorization` header is read as raw bytes in the code, so it is a byte
list here; `Origin` and `Referer` are read as strings. -/
structure AuthRequest where
  method : Method
  authorization : Option (List Nat)
  origin : Option String
  referer : Option String

/-- The configuration the guard closes over: the pre-computed
`"Basic " + base64(admin:password)` header value (as bytes) and the base
URL used for the origin check. -/
structure AuthConfig where
  expected_auth_header : List Nat
  base_url : String

/-- Outcome of the middleware: an early 401 response (with its
`WWW-Authenticate` header value and body), an early 403 response (with its
body), or passing the request through to the inner handler. -/
inductive AuthDecision where
  | unauthorized : String → String → AuthDecision
  | forbidden : String → AuthDecision
  | pass : AuthDecision
deriving DecidableEq

/-- One pass of the comparison loop of the `constant_time_eq` crate, over
the zipped byte pairs: OR together the XOR of every pair, and count one
loop step per pair.  The first component is the accumulated difference
mask, the second the number of steps executed. -/
def ctFold : List (Nat × Nat) → Nat × Nat
  | [] => (0, 0)
  | p :: ps =>
    let r := ctFold ps
    ((p.1 ^^^ p.2) ||| r.1, r.2 + 1)

/-- The `constant_time_eq` crate function: equal lengths, and a zero
accumulated difference mask over all byte pairs. -/
def constant_time_eq (a b : List Nat) : Bool :=
  a.length == b.length && (ctFold (a.zip b)).1 == 0

/-- Number of byte-comparison steps `constant_time_eq` executes: the loop
runs only after the length check succeeds. -/
def ctCost (a b : List Nat) : Nat :=
  if a.length == b.length then (ctFold (a.zip b)).2 else 0

/-- Rust's `str::starts_with` with a string pattern, as used by
`o.starts_with(&state.base_url)`: the pattern's characters are a leading
run of the subject's characters (for valid UTF-8, byte-level and
character-level leading runs coincide). -/
def starts_with (s pat : String) : Bool := pat.data.isPrefixOf s.data

/-- The `auth` middleware (main.rs 160-210): first the credential check —
compare the raw `Authorization` bytes against the expected header with
`constant_time_eq`, a missing header counting as a mismatch — answering 401
plus a `WWW-Authenticate` challenge on failure; then, for POST, PUT and
DELETE only, the origin check — take the `Origin` header, falling back to
`Referer`, and require the base URL to be a leading substring of it —
answering 403 with a distinct body on failure. -/
def auth (cfg : AuthConfig) (req : AuthRequest) : AuthDecision :=
  let is_authorized := match req.authorization with
    | some a => constant_time_eq a cfg.expected_auth_header
    | none => false
  if !is_authorized then
    AuthDecision.unauthorized "Basic realm=\"Admin Area\"" "Unauthorized: Access Denied"
  else if req.method == Method.POST || req.method == Method.PUT
      || req.method == Method.DELETE then
    let origin := (req.origin).or req.referer
    let is_valid_origin := match origin with
      | some o => starts_with o cfg.base_url
      | none => false
    if !is_valid_origin then
      AuthDecision.forbidden "Forbidden: CSRF Check Failed (Invalid Origin)"
    else
      AuthDecision.pass
  else
    AuthDecision.pass

/-! ## The code encoder (`to_svg_string`, main.rs 82-100) -/

/-- The interface of a generated code matrix as `to_svg_string` consumes it
(the `qrcodegen::QrCode` API): one side length, and a module predicate over
a square grid of that side. -/
structure QrCode where
  size : Nat
  get_module : Nat → Nat → Bool

/-- Error-correction levels of the encoding library; `create_ticket` (main.rs
line 263) encodes the guest URL at `Medium`. -/
inductive Ecc where
  | Low | Medium | Quartile | High
deriving DecidableEq

/-- The path command `write!(res, "M{},{}h1v1h-1z ", x + brd, y + brd)`
emits for the dark module at `(x, y)`: a unit square at integer coordinates
offset by the border width. -/
def squareCmd (brd : Nat) (p : Nat × Nat) : String :=
  "M" ++ toString (p.1 + brd) ++ "," ++ toString (p.2 + brd) ++ "h1v1h-1z "

/-- The `to_svg_string` function (main.rs 82-100): emit the SVG header with
a viewBox of side `dim + border * 2`, a white background rectangle, then one
unit-square path command per dark module, scanning rows top to bottom and
each row left to right, exactly as the nested `for` loops do. -/
def to_svg_string (qr : QrCode) (border : Nat) : String :=
  let dim := qr.size
  let brd := border
  let width := dim + brd * 2
  "<svg xmlns=\"http://www.w3.org/2000/svg\" version=\"1.1\" viewBox=\"0 0 "
    ++ toString width ++ " " ++ toString width ++ "\" stroke=\"none\">"
    ++ "<rect width=\"100%\" height=\"100%\" fill=\"#FFFFFF\"/>"
    ++ "<path d=\""
    ++ (List.range dim).foldl (fun acc y =>
        (List.range dim).foldl (fun acc2 x =>
          if qr.get_module x y then acc2 ++ squareCmd brd (x, y) else acc2) acc) ""
    ++ "\" fill=\"#000000\"/></svg>"

/-- Declarative view of the serializer: the coordinates of the dark
modules, in the scan order of the nested loops. -/
def darkModules (qr : QrCode) : List (Nat × Nat) :=
  (List.range qr.size).flatMap (fun y =>
    (List.range qr.size).filterMap (fun x =>
      if qr.get_module x y then some (x, y) else none))

/-- Declarative form of the path data: one unit-square command per dark
module, concatenated in scan order. -/
def pathData (qr : QrCode) (brd : Nat) : String :=
  String.join ((darkModules qr).map (squareCmd brd))

/-- The lines of `create_ticket` that build the displayed code (main.rs
262-264): encode the guest URL at medium error correction and serialize
with a quiet border of 4 modules.  The encoding function itself lives in
the `qrcodegen` crate and enters the model as a parameter. -/
def ticketQrSvg (encode_text : String → Ecc → QrCode) (url : String) : String :=
  to_svg_string (encode_text url Ecc.Medium) 4

/-! ## Scenario used by the numbering claim: repeated issuance -/

/-- Issuing `n` tickets in sequence starting from the empty store, with
fresh ids `0, 1, ...` and group size 1. -/
def issueN : Nat → List Ticket
  | 0 => []
  | n + 1 => (createTicket (issueN n) n 1).2

theorem maxNumber_append_singleton (s : List Ticket) (t : Ticket)
    (ht : 0 ≤ t.number) : maxNumber (s ++ [t]) = max (maxNumber s) t.number := by
  cases s with
  | nil => simp [maxNumber, max_eq_right ht]
  | cons u us => simp [maxNumber, List.foldl_append]

theorem issueN_maxNumber_and_numbers (n : Nat) (hn : n ≤ 999) :
    maxNumber (issueN n) = (n : Int) ∧
    (issueN n).map (fun t => t.number) =
      (List.range n).map (fun i : Nat => (i : Int) + 1) := by
  induction n with
  | zero => exact ⟨rfl, rfl⟩
  | succ m ih =>
    obtain ⟨hmax, hmap⟩ := ih (Nat.le_of_succ_le hn)
    have hnum : assignedNumber (issueN m) = (m : Int) + 1 := by
      have hle : (m : Int) + 1 ≤ 999 := by
        have : (m : Int) + 1 ≤ (999 : Nat) := by exact_mod_cast hn
        simpa using this
      simp [assignedNumber, hmax, not_lt.mpr hle]
    constructor
    · show maxNumber (issueN m ++ [⟨m, assignedNumber (issueN m), 1, "waiting"⟩]) = _
      rw [maxNumber_append_singleton _ _ (by simp [hnum]; positivity)]
      simp [hmax, hnum]
    · show (issueN m ++ [(⟨m, assignedNumber (issueN m), 1, "waiting"⟩ : Ticket)]).map
          (fun t => t.number) = _
      rw [List.map_append, hmap, List.range_succ, List.map_append]
      simp [hnum]

/-- C1: issuing assigns `max(existing numbers) + 1`, wrapping to `1` past
`999`; from the empty store, `N ≤ 999` successive issuances produce the
strictly increasing numbers `1..N`, and issuance against a store whose
maximum number is `999` produces number `1`. -/
theorem ticket_numbering_max_plus_one_wraps :
    (∀ s newId gs, ((createTicket s newId gs).1).number =
        (if maxNumber s + 1 > 999 then 1 else maxNumber s + 1)) ∧
    (∀ N, N ≤ 999 →
      (issueN N).map (fun t => t.number) =
        (List.range N).map (fun i : Nat => (i : Int) + 1)) ∧
    (∀ s newId gs, maxNumber s = 999 →
      ((createTicket s newId gs).1).number = 1) := by
  refine ⟨fun s newId gs => rfl, fun N hN => (issueN_maxNumber_and_numbers N hN).2,
    fun s newId gs h => ?_⟩
  simp [createTicket, assignedNumber, h]

/-- Witness for C1 at `N = 3` and at a store whose maximum number is 999. -/
theorem ticket_numbering_max_plus_one_wraps_witness :
    (issueN 3).map (fun t => t.number) =
      (List.range 3).map (fun i : Nat => (i : Int) + 1) ∧
    ((createTicket [⟨0, 999, 2, "waiting"⟩] 1 2).1).number = 1 :=
  ⟨ticket_numbering_max_plus_one_wraps.2.1 3 (by decide),
   ticket_numbering_max_plus_one_wraps.2.2 [⟨0, 999, 2, "waiting"⟩] 1 2 (by decide)⟩

/-- C2: the guest view of a ticket present in the store returns the ticket
together with the number of tickets whose status is `waiting` and whose
number is strictly below the viewed ticket's number; in particular, with
tickets `(1, waiting)`, `(2, waiting)`, `(3, called)`, viewing ticket 3
yields 2 and viewing ticket 2 yields 1. -/
theorem guest_waiting_count_correct :
    (∀ s tid t, getTicket s tid = some t →
      guest_page s tid = Outcome.ok
        (t, (s.filter (fun u =>
              decide (u.status = "waiting" ∧ u.number < t.number))).length)) ∧
    guest_page [⟨1, 1, 1, "waiting"⟩, ⟨2, 2, 1, "waiting"⟩, ⟨3, 3, 1, "called"⟩] 3 =
      Outcome.ok (⟨3, 3, 1, "called"⟩, 2) ∧
    guest_page [⟨1, 1, 1, "waiting"⟩, ⟨2, 2, 1, "waiting"⟩, ⟨3, 3, 1, "called"⟩] 2 =
      Outcome.ok (⟨2, 2, 1, "waiting"⟩, 1) := by
  refine ⟨fun s tid t h => ?_, by decide, by decide⟩
  have hfilter : s.filter (fun u => u.status == "waiting" && decide (u.number < t.number)) =
      s.filter (fun u => decide (u.status = "waiting" ∧ u.number < t.number)) := by
    apply List.filter_congr
    intro u _
    by_cases h1 : u.status = "waiting" <;> by_cases h2 : u.number < t.number <;>
      simp [h1, h2]
  simp [guest_page, h, countWaitingBefore, hfilter]

/-- Witness for C2: the general waiting-count statement applied to the
concrete three-ticket store. -/
theorem guest_waiting_count_correct_witness :
    guest_page [⟨1, 1, 1, "waiting"⟩, ⟨2, 2, 1, "waiting"⟩, ⟨3, 3, 1, "called"⟩] 3 =
      Outcome.ok (⟨3, 3, 1, "called"⟩,
        ([⟨1, 1, 1, "waiting"⟩, ⟨2, 2, 1, "waiting"⟩,
          ⟨3, 3, 1, "called"⟩] : List Ticket).filter (fun u =>
            decide (u.status = "waiting" ∧ u.number < 3)) |>.length) :=
  guest_waiting_count_correct.1 _ 3 ⟨3, 3, 1, "called"⟩ (by decide)

/-! ## Lemmas on the constant-time comparison -/

theorem lor_eq_zero_iff (a b : Nat) : a ||| b = 0 ↔ a = 0 ∧ b = 0 := by
  constructor
  · intro h
    have hbit : ∀ i, a.testBit i = false ∧ b.testBit i = false := by
      intro i
      have := congrArg (fun n => Nat.testBit n i) h
      simpa [Nat.testBit_or] using this
    exact ⟨Nat.eq_of_testBit_eq fun i => by simp [(hbit i).1],
           Nat.eq_of_testBit_eq fun i => by simp [(hbit i).2]⟩
  · rintro ⟨rfl, rfl⟩
    rfl

theorem ctFold_steps (l : List (Nat × Nat)) : (ctFold l).2 = l.length := by
  induction l with
  | nil => rfl
  | cons p ps ih => simp [ctFold, ih]

theorem ctFold_mask_eq_zero (l : List (Nat × Nat)) :
    (ctFold l).1 = 0 ↔ ∀ p ∈ l, p.1 = p.2 := by
  induction l with
  | nil => simp [ctFold]
  | cons p ps ih => simp [ctFold, lor_eq_zero_iff, Nat.xor_eq_zero, ih]

theorem zip_pointwise_eq (a : List Nat) :
    ∀ b : List Nat, a.length = b.length → ((∀ p ∈ a.zip b, p.1 = p.2) ↔ a = b) := by
  induction a with
  | nil => intro b hlen; cases b <;> simp_all
  | cons x xs ih =>
    intro b hlen
    cases b with
    | nil => simp at hlen
    | cons y ys =>
      have := ih ys (by simpa using hlen)
      simp_all [List.zip_cons_cons]

theorem constant_time_eq_iff (a b : List Nat) : constant_time_eq a b = true ↔ a = b := by
  unfold constant_time_eq
  simp only [Bool.and_eq_true, beq_iff_eq]
  constructor
  · rintro ⟨hlen, hmask⟩
    exact (zip_pointwise_eq a b hlen).1 ((ctFold_mask_eq_zero _).1 hmask)
  · rintro rfl
    exact ⟨rfl, (ctFold_mask_eq_zero _).2 ((zip_pointwise_eq a a rfl).2 rfl)⟩

theorem ctCost_lengths_only (a b : List Nat) :
    ctCost a b = if a.length = b.length then a.length else 0 := by
  unfold ctCost
  by_cases h : a.length = b.length
  · simp [h, ctFold_steps, List.length_zip]
  · simp [h]

/-- C3: the guard compares the presented `Authorization` bytes against the
expected header with a comparison whose step count is a function of the
operand lengths alone — never of the position of a mismatch — while
agreeing with plain equality; a missing header is a mismatch; a missing or
altered header always receives the same 401 challenge response carrying a
`WWW-Authenticate` hint, and a correct header never does. -/
theorem guard_credential_constant_time (cfg : AuthConfig) :
    (∀ a b : List Nat, ctCost a b = if a.length = b.length then a.length else 0) ∧
    (∀ a b : List Nat, constant_time_eq a b = true ↔ a = b) ∧
    (∀ req, req.authorization = none →
      auth cfg req = AuthDecision.unauthorized "Basic realm=\"Admin Area\""
        "Unauthorized: Access Denied") ∧
    (∀ req a, req.authorization = some a → a ≠ cfg.expected_auth_header →
      auth cfg req = AuthDecision.unauthorized "Basic realm=\"Admin Area\""
        "Unauthorized: Access Denied") ∧
    (∀ req, req.authorization = some cfg.expected_auth_header →
      ∀ w body, auth cfg req ≠ AuthDecision.unauthorized w body) := by
  refine ⟨ctCost_lengths_only, constant_time_eq_iff, ?_, ?_, ?_⟩
  · intro req h
    simp [auth, h]
  · intro req a hreq hne
    have hct : constant_time_eq a cfg.expected_auth_header = false := by
      rw [← Bool.not_eq_true, constant_time_eq_iff]
      exact hne
    simp [auth, hreq, hct]
  · intro req hreq w body
    have hct : constant_time_eq cfg.expected_auth_header cfg.expected_auth_header = true :=
      (constant_time_eq_iff _ _).2 rfl
    simp only [auth, hreq, hct, Bool.not_true, Bool.false_eq_true, if_false]
    split
    · split <;> simp
    · simp

/-- Witness for C3: cost of a full mismatch, the 401 on a missing header,
the 401 on an altered header, and acceptance of the correct header, at the
expected value `[1, 2, 3]`. -/
theorem guard_credential_constant_time_witness :
    ctCost [1, 2, 3] [7, 8, 9] = 3 ∧
    auth ⟨[1, 2, 3], "b"⟩ ⟨Method.GET, none, none, none⟩ =
      AuthDecision.unauthorized "Basic realm=\"Admin Area\"" "Unauthorized: Access Denied" ∧
    auth ⟨[1, 2, 3], "b"⟩ ⟨Method.GET, some [1, 2, 4], none, none⟩ =
      AuthDecision.unauthorized "Basic realm=\"Admin Area\"" "Unauthorized: Access Denied" ∧
    auth ⟨[1, 2, 3], "b"⟩ ⟨Method.GET, some [1, 2, 3], none, none⟩ ≠
      AuthDecision.unauthorized "w" "b" := by
  refine ⟨?_, ?_, ?_, ?_⟩
  · have h := (guard_credential_constant_time ⟨[1, 2, 3], "b"⟩).1 [1, 2, 3] [7, 8, 9]
    simpa using h
  · exact (guard_credential_constant_time _).2.2.1 _ rfl
  · exact (guard_credential_constant_time _).2.2.2.1 _ [1, 2, 4] rfl (by decide)
  · exact (guard_credential_constant_time _).2.2.2.2 _ rfl "w" "b"

/-- C4: once the credential is accepted, requests with method POST, PUT or
DELETE must carry an `Origin` header — or, failing that, a `Referer` —
whose value extends the configured base URL; otherwise they are answered
with the 403 body, which differs from the 401 body; GET requests skip the
check entirely. -/
theorem guard_origin_check_mutating_only (cfg : AuthConfig) (req : AuthRequest)
    (hauth : req.authorization = some cfg.expected_auth_header) :
    ((req.method = Method.POST ∨ req.method = Method.PUT ∨ req.method = Method.DELETE) →
      (req.origin = none → req.referer = none →
        auth cfg req = AuthDecision.forbidden "Forbidden: CSRF Check Failed (Invalid Origin)") ∧
      (∀ o, req.origin = some o →
        auth cfg req = (if starts_with o cfg.base_url then AuthDecision.pass
          else AuthDecision.forbidden "Forbidden: CSRF Check Failed (Invalid Origin)")) ∧
      (∀ r, req.origin = none → req.referer = some r →
        auth cfg req = (if starts_with r cfg.base_url then AuthDecision.pass
          else AuthDecision.forbidden "Forbidden: CSRF Check Failed (Invalid Origin)"))) ∧
    (req.method = Method.GET → auth cfg req = AuthDecision.pass) ∧
    ("Forbidden: CSRF Check Failed (Invalid Origin)" ≠ "Unauthorized: Access Denied") := by
  have hct : constant_time_eq cfg.expected_auth_header cfg.expected_auth_header = true :=
    (constant_time_eq_iff _ _).2 rfl
  have hmut : ∀ m : Method, (m = Method.POST ∨ m = Method.PUT ∨ m = Method.DELETE) →
      (m == Method.POST || m == Method.PUT || m == Method.DELETE) = true := by
    intro m hm
    rcases hm with h | h | h <;> simp [h]
  refine ⟨fun hm => ⟨?_, ?_, ?_⟩, ?_, by decide⟩
  · intro ho hr
    simp [auth, hauth, hct, hmut req.method hm, ho, hr, Option.or]
  · intro o ho
    by_cases hs : starts_with o cfg.base_url <;>
      simp [auth, hauth, hct, hmut req.method hm, ho, Option.or, hs]
  · intro r ho hr
    by_cases hs : starts_with r cfg.base_url <;>
      simp [auth, hauth, hct, hmut req.method hm, ho, hr, Option.or, hs]
  · intro hm
    simp [auth, hauth, hct, hm]

set_option maxRecDepth 8192 in
/-- Witness for C4 at base URL `https://venue.example`: a cross-site POST
is refused, a same-site POST passes, a POST with neither header is
refused, and a GET with a hostile Origin passes. -/
theorem guard_origin_check_mutating_only_witness :
    auth ⟨[1, 2], "https://venue.example"⟩
      ⟨Method.POST, some [1, 2], some "https://evil.example", none⟩ =
      AuthDecision.forbidden "Forbidden: CSRF Check Failed (Invalid Origin)" ∧
    auth ⟨[1, 2], "https://venue.example"⟩
      ⟨Method.POST, some [1, 2], some "https://venue.example/admin/front", none⟩ =
      AuthDecision.pass ∧
    auth ⟨[1, 2], "https://venue.example"⟩ ⟨Method.POST, some [1, 2], none, none⟩ =
      AuthDecision.forbidden "Forbidden: CSRF Check Failed (Invalid Origin)" ∧
    auth ⟨[1, 2], "https://venue.example"⟩
      ⟨Method.GET, some [1, 2], some "https://evil.example", none⟩ =
      AuthDecision.pass := by
  refine ⟨?_, ?_, ?_, ?_⟩
  · have h := ((guard_origin_check_mutating_only ⟨[1, 2], "https://venue.example"⟩
      ⟨Method.POST, some [1, 2], some "https://evil.example", none⟩ rfl).1
      (Or.inl rfl)).2.1 "https://evil.example" rfl
    rw [h]
    decide
  · have h := ((guard_origin_check_mutating_only ⟨[1, 2], "https://venue.example"⟩
      ⟨Method.POST, some [1, 2], some "https://venue.example/admin/front", none⟩ rfl).1
      (Or.inl rfl)).2.1 "https://venue.example/admin/front" rfl
    rw [h]
    decide
  · exact ((guard_origin_check_mutating_only ⟨[1, 2], "https://venue.example"⟩
      ⟨Method.POST, some [1, 2], none, none⟩ rfl).1 (Or.inl rfl)).1 rfl rfl
  · exact (guard_origin_check_mutating_only ⟨[1, 2], "https://venue.example"⟩
      ⟨Method.GET, some [1, 2], some "https://evil.example", none⟩ rfl).2.1 rfl

/-! ## Behavior on unknown ids and unvalidated input (C5, C6) -/

/-- C5 counterexample: on an unknown id the guest view panics (the
`fetch_one` row-not-found error hits `.expect("Ticket not found")`) instead
of returning a handled not-found page, and the status update succeeds
silently — zero rows match the `UPDATE`, yet the handler redirects as on
success with the store unchanged. -/
theorem unknown_id_not_notfound_cex :
    guest_page [] 0 = Outcome.panicked "Ticket not found" ∧
    update_status [⟨5, 1, 2, "waiting"⟩] 99 "called" =
      Outcome.ok ([⟨5, 1, 2, "waiting"⟩], "/admin/call") :=
  ⟨rfl, rfl⟩

theorem updateStatusStore_unknown_id (s : List Ticket) (tid : Nat) (st : String)
    (h : getTicket s tid = none) : updateStatusStore s tid st = s := by
  have hall := List.find?_eq_none.mp h
  unfold updateStatusStore
  calc s.map (fun t => if t.id == tid then { t with status := st } else t)
      = s.map id := by
        apply List.map_congr_left
        intro t ht
        have : (t.id == tid) = false := by simpa using hall t ht
        simp [this]
    _ = s := List.map_id s

/-- C5 amended: for every unknown id, the guest view does fail, but with a
panic carrying the message `Ticket not found` rather than a handled
user-visible not-found outcome, and the status update does not fail at
all — it silently succeeds, leaving the store unchanged and redirecting to
`/admin/call`. -/
theorem unknown_id_panics_or_silently_succeeds :
    (∀ s tid, getTicket s tid = none →
      guest_page s tid = Outcome.panicked "Ticket not found") ∧
    (∀ s tid st, getTicket s tid = none →
      update_status s tid st = Outcome.ok (s, "/admin/call")) := by
  constructor
  · intro s tid h
    simp [guest_page, h]
  · intro s tid st h
    simp [update_status, updateStatusStore_unknown_id s tid st h]

/-- Witness for the amended C5 at a one-ticket store and the absent id 4. -/
theorem unknown_id_panics_or_silently_succeeds_witness :
    guest_page [⟨5, 1, 2, "waiting"⟩] 4 = Outcome.panicked "Ticket not found" ∧
    update_status [⟨5, 1, 2, "waiting"⟩] 4 "completed" =
      Outcome.ok ([⟨5, 1, 2, "waiting"⟩], "/admin/call") :=
  ⟨unknown_id_panics_or_silently_succeeds.1 _ 4 (by decide),
   unknown_id_panics_or_silently_succeeds.2 _ 4 "completed" (by decide)⟩

/-- C6 counterexample: issuing with the non-positive group size `0`
succeeds and inserts the row — no `InvalidInput` failure, and the store
changes; updating with the unrecognized status string `banana` succeeds
and writes that string — again no failure and a changed store. -/
theorem no_input_validation_cex :
    create_ticket [] 7 0 =
      Outcome.ok (⟨7, 1, 0, "waiting"⟩, [⟨7, 1, 0, "waiting"⟩]) ∧
    update_status [⟨5, 1, 2, "waiting"⟩] 5 "banana" =
      Outcome.ok ([⟨5, 1, 2, "banana"⟩], "/admin/call") := by
  constructor
  · decide
  · decide

/-- C6 amended: neither handler validates its input.  Issuing accepts any
integer group size, non-positive included, and inserts it verbatim;
updating accepts any status string, recognized or not, writes it to the
matching ticket, and reports success — in both cases the store changes
rather than being left unchanged by a rejection. -/
theorem no_input_validation_amended :
    (∀ s newId gs, gs ≤ 0 →
      create_ticket s newId gs = Outcome.ok
        (⟨newId, assignedNumber s, gs, "waiting"⟩,
         s ++ [⟨newId, assignedNumber s, gs, "waiting"⟩])) ∧
    (∀ s tid st t, st ≠ "waiting" → st ≠ "called" → st ≠ "completed" →
      update_status s tid st = Outcome.ok (updateStatusStore s tid st, "/admin/call") ∧
      (t ∈ s → t.id = tid → { t with status := st } ∈ updateStatusStore s tid st)) := by
  constructor
  · intro s newId gs _
    rfl
  · intro s tid st t _ _ _
    refine ⟨rfl, fun ht hid => ?_⟩
    have hmem := List.mem_map_of_mem
      (fun u => if u.id == tid then { u with status := st } else u) ht
    simpa [updateStatusStore, hid] using hmem

/-- Witness for the amended C6: group size `-3` is inserted as given, and
the status string `zzz` is written. -/
theorem no_input_validation_amended_witness :
    create_ticket [] 2 (-3) =
      Outcome.ok (⟨2, 1, -3, "waiting"⟩, [⟨2, 1, -3, "waiting"⟩]) ∧
    update_status [⟨5, 1, 2, "waiting"⟩] 5 "zzz" =
      Outcome.ok (updateStatusStore [⟨5, 1, 2, "waiting"⟩] 5 "zzz", "/admin/call") ∧
    ({ (⟨5, 1, 2, "waiting"⟩ : Ticket) with status := "zzz" } ∈
      updateStatusStore [⟨5, 1, 2, "waiting"⟩] 5 "zzz") := by
  have h2 := no_input_validation_amended.2 [⟨5, 1, 2, "waiting"⟩] 5 "zzz"
    ⟨5, 1, 2, "waiting"⟩ (by decide) (by decide) (by decide)
  exact ⟨(no_input_validation_amended.1 [] 2 (-3) (by decide)).trans (by decide),
    h2.1, h2.2 (by decide) rfl⟩

/-! ## The active list (C7) and reset (C8) -/

/-- C7: the active list holds exactly the tickets whose status is not
`completed`, in ascending `number` order; hence a ticket set to `called`
is still on it, and a ticket set to `completed` is off it. -/
theorem active_list_non_completed_sorted (s : List Ticket) :
    (∀ t, t ∈ call_page s ↔ t ∈ s ∧ t.status ≠ "completed") ∧
    (call_page s).Sorted numberLE ∧
    (∀ tid t, t ∈ s → t.id = tid →
      { t with status := "called" } ∈ call_page (updateStatusStore s tid "called")) ∧
    (∀ tid u, u ∈ call_page (updateStatusStore s tid "completed") → u.id ≠ tid) := by
  have hmem : ∀ (l : List Ticket) (t : Ticket),
      t ∈ call_page l ↔ t ∈ l ∧ t.status ≠ "completed" := by
    intro l t
    simp [call_page, List.mem_filter]
  refine ⟨hmem s, ?_, ?_, ?_⟩
  · simp only [call_page]
    exact List.sorted_insertionSort numberLE _
  · intro tid t ht hid
    refine (hmem _ _).2 ⟨?_, by simp⟩
    have hmm := List.mem_map_of_mem
      (fun u => if u.id == tid then { u with status := "called" } else u) ht
    simpa [updateStatusStore, hid] using hmm
  · intro tid u hu
    obtain ⟨hu_mem, hu_status⟩ := (hmem _ _).1 hu
    obtain ⟨t, ht, hft⟩ := List.mem_map.mp hu_mem
    by_cases hc : t.id = tid
    · rw [← hft] at hu_status
      simp [hc] at hu_status
    · rw [← hft]
      simp [hc]

/-- Witness for C7: the called ticket stays on the active list of a
concrete one-ticket store. -/
theorem active_list_non_completed_sorted_witness :
    { (⟨1, 5, 1, "waiting"⟩ : Ticket) with status := "called" } ∈
      call_page (updateStatusStore [⟨1, 5, 1, "waiting"⟩] 1 "called") :=
  (active_list_non_completed_sorted [⟨1, 5, 1, "waiting"⟩]).2.2.1 1
    ⟨1, 5, 1, "waiting"⟩ (by decide) rfl

/-- C8: after a reset the store is empty, so the active list is empty and
the next issued ticket gets number 1. -/
theorem reset_empties_store (s : List Ticket) (newId : Nat) (gs : Int) :
    reset_db s = [] ∧ call_page (reset_db s) = [] ∧
    ((createTicket (reset_db s) newId gs).1).number = 1 :=
  ⟨rfl, rfl, rfl⟩

/-! ## Frame property of the status update (C10) -/

/-- C10: a status update leaves every ticket with a different id exactly as
it was, and on tickets with the targeted id changes nothing but the status
field, which becomes the supplied string. -/
theorem update_status_frame (s : List Ticket) (tid : Nat) (st : String) :
    List.Forall₂ (fun t u =>
      u.id = t.id ∧ u.number = t.number ∧ u.group_size = t.group_size ∧
      (t.id ≠ tid → u = t) ∧ (t.id = tid → u.status = st))
      s (updateStatusStore s tid st) := by
  induction s with
  | nil => exact List.Forall₂.nil
  | cons t ts ih =>
    refine List.Forall₂.cons ?_ ih
    by_cases hc : t.id = tid
    · simp [hc]
    · simp [hc]

/-- Witness for C10 on a concrete two-ticket store. -/
theorem update_status_frame_witness :
    List.Forall₂ (fun t u =>
      u.id = t.id ∧ u.number = t.number ∧ u.group_size = t.group_size ∧
      (t.id ≠ 1 → u = t) ∧ (t.id = 1 → u.status = "called"))
      [⟨1, 5, 1, "waiting"⟩, ⟨2, 6, 2, "waiting"⟩]
      (updateStatusStore [⟨1, 5, 1, "waiting"⟩, ⟨2, 6, 2, "waiting"⟩] 1 "called") :=
  update_status_frame [⟨1, 5, 1, "waiting"⟩, ⟨2, 6, 2, "waiting"⟩] 1 "called"

/-! ## Structure of the serialized code image (C9) -/

/-- Concatenation of a list of emitted fragments. -/
def concatAll : List String → String
  | [] => ""
  | c :: cs => c ++ concatAll cs

theorem concatAll_append (a b : List String) :
    concatAll (a ++ b) = concatAll a ++ concatAll b := by
  induction a with
  | nil => simp [concatAll]
  | cons c cs ih => simp [concatAll, ih, String.append_assoc]

/-- The dark modules of one row `y`, as scanned by the inner loop. -/
def rowDark (qr : QrCode) (y : Nat) : List (Nat × Nat) :=
  (List.range qr.size).filterMap (fun x =>
    if qr.get_module x y then some (x, y) else none)

theorem rowDark_fold (qr : QrCode) (brd y : Nat) :
    ∀ (l : List Nat) (acc : String),
      l.foldl (fun acc2 x =>
          if qr.get_module x y then acc2 ++ squareCmd brd (x, y) else acc2) acc
        = acc ++ concatAll ((l.filterMap (fun x =>
            if qr.get_module x y then some (x, y) else none)).map (squareCmd brd)) := by
  intro l
  induction l with
  | nil => intro acc; simp [concatAll]
  | cons x xs ih =>
    intro acc
    by_cases hm : qr.get_module x y
    · simp [hm, ih, concatAll, String.append_assoc]
    · simp [hm, ih]

theorem darkModules_eq_flatMap (qr : QrCode) :
    darkModules qr = (List.range qr.size).flatMap (rowDark qr) := rfl

theorem svg_fold_eq (qr : QrCode) (brd : Nat) :
    ∀ (l : List Nat) (acc : String),
      l.foldl (fun acc y =>
          (List.range qr.size).foldl (fun acc2 x =>
            if qr.get_module x y then acc2 ++ squareCmd brd (x, y) else acc2) acc) acc
        = acc ++ concatAll ((l.flatMap (rowDark qr)).map (squareCmd brd)) := by
  intro l
  induction l with
  | nil => intro acc; simp [concatAll]
  | cons y ys ih =>
    intro acc
    rw [List.foldl_cons, ih, rowDark_fold]
    simp [rowDark, List.flatMap_cons, concatAll_append, String.append_assoc]

theorem mem_darkModules (qr : QrCode) (x y : Nat) :
    (x, y) ∈ darkModules qr ↔
      x < qr.size ∧ y < qr.size ∧ qr.get_module x y = true := by
  simp only [darkModules, List.mem_flatMap, List.mem_filterMap, List.mem_range]
  constructor
  · rintro ⟨b, hb, a, ha, hfa⟩
    by_cases hm : qr.get_module a b
    · simp only [hm, if_true, Option.some.injEq, Prod.mk.injEq] at hfa
      exact ⟨hfa.1 ▸ ha, hfa.2 ▸ hb, by rw [← hfa.1, ← hfa.2]; exact hm⟩
    · simp [hm] at hfa
  · rintro ⟨hx, hy, hm⟩
    exact ⟨y, hy, x, hx, by simp [hm]⟩

theorem length_filter_eq_of_nodup {α : Type} [DecidableEq α] {l : List α} {a : α}
    (hnd : l.Nodup) (ha : a ∈ l) :
    (l.filter (fun b => decide (b = a))).length = 1 := by
  induction l with
  | nil => cases ha
  | cons x xs ih =>
    rcases List.mem_cons.mp ha with rfl | hmem
    · have hnotin : a ∉ xs := (List.nodup_cons.mp hnd).1
      have hnil : xs.filter (fun b => decide (b = a)) = [] := by
        rw [List.filter_eq_nil_iff]
        intro b hb
        simp only [decide_eq_true_eq]
        exact fun h => hnotin (h ▸ hb)
      simp [List.filter_cons, hnil]
    · have hx : x ≠ a := fun h => (List.nodup_cons.mp hnd).1 (h ▸ hmem)
      have hrest := ih (List.nodup_cons.mp hnd).2 hmem
      simp [List.filter_cons, hx, hrest]

theorem darkModules_nodup (qr : QrCode) : (darkModules qr).Nodup := by
  rw [darkModules_eq_flatMap]
  refine List.nodup_flatMap.2 ⟨?_, ?_⟩
  · intro y _
    refine List.Nodup.filterMap ?_ (List.nodup_range qr.size)
    intro a b c hca hcb
    by_cases hma : qr.get_module a y
    · by_cases hmb : qr.get_module b y
      · simp only [hma, hmb, if_true, Option.mem_def, Option.some.injEq] at hca hcb
        rw [← hca] at hcb
        exact (Prod.mk.injEq ..).mp hcb |>.1.symm
      · simp [hmb] at hcb
    · simp [hma] at hca
  · refine List.Pairwise.imp ?_ (List.pairwise_lt_range qr.size)
    intro y₁ y₂ hlt
    simp only [Function.onFun, List.disjoint_left]
    intro p hp₁ hp₂
    have h₁ : p.2 = y₁ := by
      obtain ⟨a, _, hfa⟩ := List.mem_filterMap.mp hp₁
      by_cases hm : qr.get_module a y₁
      · simp only [hm, if_true, Option.some.injEq] at hfa
        rw [← hfa]
      · simp [hm] at hfa
    have h₂ : p.2 = y₂ := by
      obtain ⟨a, _, hfa⟩ := List.mem_filterMap.mp hp₂
      by_cases hm : qr.get_module a y₂
      · simp only [hm, if_true, Option.some.injEq] at hfa
        rw [← hfa]
      · simp [hm] at hfa
    exact absurd (h₁.symm.trans h₂) (Nat.ne_of_lt hlt)

/-- C9: serializing a code matrix is a pure function producing the
vector-image document whose viewBox side is the matrix dimension plus
twice the quiet border, and whose single path holds the unit-square
commands of exactly the dark modules — one command per dark module, at the
module's integer coordinates shifted by the border. -/
theorem svg_one_square_per_dark_module (qr : QrCode) (border : Nat) :
    to_svg_string qr border =
      "<svg xmlns=\"http://www.w3.org/2000/svg\" version=\"1.1\" viewBox=\"0 0 "
        ++ toString (qr.size + border * 2) ++ " " ++ toString (qr.size + border * 2)
        ++ "\" stroke=\"none\">"
        ++ "<rect width=\"100%\" height=\"100%\" fill=\"#FFFFFF\"/>"
        ++ "<path d=\""
        ++ concatAll ((darkModules qr).map (squareCmd border))
        ++ "\" fill=\"#000000\"/></svg>" ∧
    (∀ x y, (x, y) ∈ darkModules qr ↔
      x < qr.size ∧ y < qr.size ∧ qr.get_module x y = true) ∧
    (∀ x y, x < qr.size → y < qr.size → qr.get_module x y = true →
      ((darkModules qr).filter (fun q => decide (q = (x, y)))).length = 1) ∧
    (∀ p ∈ darkModules qr, squareCmd border p =
      "M" ++ toString (p.1 + border) ++ "," ++ toString (p.2 + border) ++ "h1v1h-1z ") ∧
    (∀ (encode_text : String → Ecc → QrCode) (url : String),
      ticketQrSvg encode_text url = to_svg_string (encode_text url Ecc.Medium) 4) := by
  refine ⟨?_, mem_darkModules qr, ?_, fun p _ => rfl, fun _ _ => rfl⟩
  · show "<svg xmlns=\"http://www.w3.org/2000/svg\" version=\"1.1\" viewBox=\"0 0 "
        ++ toString (qr.size + border * 2) ++ " " ++ toString (qr.size + border * 2)
        ++ "\" stroke=\"none\">"
        ++ "<rect width=\"100%\" height=\"100%\" fill=\"#FFFFFF\"/>"
        ++ "<path d=\""
        ++ (List.range qr.size).foldl (fun acc y =>
            (List.range qr.size).foldl (fun acc2 x =>
              if qr.get_module x y then acc2 ++ squareCmd border (x, y) else acc2) acc) ""
        ++ "\" fill=\"#000000\"/></svg>" = _
    rw [svg_fold_eq qr border (List.range qr.size) "", String.empty_append,
      ← darkModules_eq_flatMap]
  · intro x y hx hy hm
    exact length_filter_eq_of_nodup (darkModules_nodup qr)
      ((mem_darkModules qr x y).2 ⟨hx, hy, hm⟩)

/-- Witness for C9: the serialization of a concrete 2×2 diagonal matrix
with the border width 4 used by ticket issuance. -/
theorem svg_one_square_per_dark_module_witness :
    to_svg_string ⟨2, fun x y => x == y⟩ 4 =
      "<svg xmlns=\"http://www.w3.org/2000/svg\" version=\"1.1\" viewBox=\"0 0 "
        ++ toString (2 + 4 * 2) ++ " " ++ toString (2 + 4 * 2)
        ++ "\" stroke=\"none\">"
        ++ "<rect width=\"100%\" height=\"100%\" fill=\"#FFFFFF\"/>"
        ++ "<path d=\""
        ++ concatAll ((darkModules ⟨2, fun x y => x == y⟩).map (squareCmd 4))
        ++ "\" fill=\"#000000\"/></svg>" ∧
    ((darkModules ⟨2, fun x y => x == y⟩).filter
      (fun q => decide (q = (1, 1)))).length = 1 :=
  ⟨(svg_one_square_per_dark_module ⟨2, fun x y => x == y⟩ 4).1,
   (svg_one_square_per_dark_module ⟨2, fun x y => x == y⟩ 4).2.2.1 1 1
     (by decide) (by decide) (by decide)⟩

end QueueTicket
